import Mathlib

/-!
A shallow embedding of the per-connection TCP state machine of
`src/net/tcp_connection_states.cpp` (IncludeOS), together with proofs
settling the frozen claims about it.

Sequence numbers are 32-bit unsigned integers.  The `TCP::Seq` type and its
comparison operators live in a header that is not part of the sources at
hand; following the specification, comparisons use the RFC 1323 style
signed-difference convention: `a < b` iff `(int32)(a - b) < 0`.
We model sequence numbers as `Nat` reduced modulo `2^32` at every use.
-/

namespace TcpSM

/-- The constant 2^32, the sequence-number modulus. -/
def M32 : Nat := 4294967296

/-- The constant 2^31, the signed-difference threshold. -/
def H32 : Nat := 2147483648

/-- Reduce a natural number into 32-bit space. -/
def wrap (a : Nat) : Nat := a % M32

/-- Wrap-around 32-bit subtraction `a - b` (the value of `(uint32)(a - b)`). -/
def sub32 (a b : Nat) : Nat := (a % M32 + M32 - b % M32) % M32

/-- Modelled from the spec: sequence comparison `a < b` iff
`(int32)(a - b) < 0`, i.e. the wrapped difference lies in the upper half. -/
def seqLt (a b : Nat) : Bool := decide (H32 ≤ sub32 a b)

/-- Modelled from the spec: `a ≤ b` iff `(int32)(a - b) ≤ 0`. -/
def seqLe (a b : Nat) : Bool := decide (wrap a = wrap b) || seqLt a b

/-- Modelled from the spec: `a > b` iff `(int32)(a - b) > 0`. -/
def seqGt (a b : Nat) : Bool := decide (0 < sub32 a b ∧ sub32 a b < H32)

theorem M32_pos : 0 < M32 := by decide

theorem wrap_lt (a : Nat) : wrap a < M32 := Nat.mod_lt _ M32_pos

theorem wrap_wrap (a : Nat) : wrap (wrap a) = wrap a := Nat.mod_mod_of_dvd _ dvd_rfl

theorem sub32_lt (a b : Nat) : sub32 a b < M32 := Nat.mod_lt _ M32_pos

/-- Piecewise form of sub32, convenient for omega. -/
theorem sub32_piece (a b : Nat) :
    sub32 a b = if b % M32 ≤ a % M32 then a % M32 - b % M32
                else a % M32 + M32 - b % M32 := by
  have hx : a % M32 < M32 := Nat.mod_lt _ M32_pos
  have hy : b % M32 < M32 := Nat.mod_lt _ M32_pos
  unfold sub32
  split
  · case isTrue h =>
      have h1 : a % M32 + M32 - b % M32 = M32 + (a % M32 - b % M32) := by omega
      rw [h1, Nat.add_mod_left]
      exact Nat.mod_eq_of_lt (by omega)
  · case isFalse h =>
      exact Nat.mod_eq_of_lt (by omega)

/-- Uniqueness characterisation: `sub32 a b` is the unique `d < 2^32` with
`b + d ≡ a (mod 2^32)`. -/
theorem sub32_eq_of (a b d : Nat) (h1 : d < M32) (h2 : (b + d) % M32 = a % M32) :
    sub32 a b = d := by
  have hx : a % M32 < M32 := Nat.mod_lt _ M32_pos
  have hy : b % M32 < M32 := Nat.mod_lt _ M32_pos
  have h3 : (b % M32 + d) % M32 = a % M32 := by
    rw [Nat.add_mod, Nat.mod_mod_of_dvd _ dvd_rfl, ← Nat.add_mod]; exact h2
  rw [sub32_piece]
  rcases Nat.lt_or_ge (b % M32 + d) M32 with hlt | hge
  · rw [Nat.mod_eq_of_lt hlt] at h3
    split <;> omega
  · have h4 : b % M32 + d - M32 < M32 := by omega
    have h5 : (b % M32 + d) % M32 = b % M32 + d - M32 := by
      rw [Nat.mod_eq_sub_mod hge, Nat.mod_eq_of_lt h4]
    rw [h5] at h3
    split <;> omega

theorem sub32_wrap_left (a b : Nat) : sub32 (wrap a) b = sub32 a b := by
  unfold sub32 wrap; rw [Nat.mod_mod_of_dvd _ dvd_rfl]

theorem sub32_wrap_right (a b : Nat) : sub32 a (wrap b) = sub32 a b := by
  unfold sub32 wrap; rw [Nat.mod_mod_of_dvd _ dvd_rfl]

theorem sub32_self (a : Nat) : sub32 a a = 0 :=
  sub32_eq_of a a 0 (by decide) (by rw [Nat.add_zero])

theorem sub32_succ_self (a : Nat) : sub32 (a + 1) a = 1 :=
  sub32_eq_of (a + 1) a 1 (by decide) rfl

theorem sub32_self_succ (a : Nat) : sub32 a (a + 1) = M32 - 1 := by
  apply sub32_eq_of
  · decide
  · have h1 : (1:Nat) ≤ M32 := by decide
    have h2 : a + 1 + (M32 - 1) = a + M32 := by omega
    rw [h2, Nat.add_mod_right]

theorem wrap_ne_wrap_of_sub32_ne (a b : Nat) (h : sub32 a b ≠ 0) :
    wrap a ≠ wrap b := by
  intro he
  apply h
  have : sub32 a b = sub32 b b := by
    unfold sub32; unfold wrap at he; rw [he]
  rw [this, sub32_self b]

/-- TCP segment flags recognised by the state machine. -/
inductive Flag
  | SYN | ACK | FIN | RST | PSH
deriving DecidableEq

/-- An outgoing packet under construction.  `seq`/`ack` are `none` until the
state machine calls `set_seq`/`set_ack`; `mss` records `add_option(MSS, ·)`. -/
structure OutPacket where
  seq : Option Nat
  ack : Option Nat
  SYN : Bool
  ACK : Bool
  FIN : Bool
  RST : Bool
  PSH : Bool
  mss : Bool
deriving DecidableEq

/-- A fresh packet from `Connection::outgoing_packet()`. -/
def OutPacket.empty : OutPacket :=
  ⟨none, none, false, false, false, false, false, false⟩

def OutPacket.set_seq (p : OutPacket) (n : Nat) : OutPacket :=
  { p with seq := some (wrap n) }

def OutPacket.set_ack (p : OutPacket) (n : Nat) : OutPacket :=
  { p with ack := some (wrap n) }

def OutPacket.set_flag (p : OutPacket) (f : Flag) : OutPacket :=
  match f with
  | Flag.SYN => { p with SYN := true }
  | Flag.ACK => { p with ACK := true }
  | Flag.FIN => { p with FIN := true }
  | Flag.RST => { p with RST := true }
  | Flag.PSH => { p with PSH := true }

/-- Modelled from the spec: `Connection::add_option(Option::MSS, packet)`
(declared outside these sources) attaches the MSS option to the packet. -/
def add_option_MSS (p : OutPacket) : OutPacket := { p with mss := true }

/-- An incoming, already-parsed segment (the `TCP::Packet_ptr` view). -/
structure Segment where
  seq : Nat
  ack : Nat
  win : Nat
  dataLength : Nat
  SYN : Bool
  ACK : Bool
  FIN : Bool
  RST : Bool
  PSH : Bool
deriving DecidableEq

def Segment.has_data (s : Segment) : Bool := s.dataLength != 0

/-- The Transmission Control Block. -/
structure TCB where
  SND_UNA : Nat
  SND_NXT : Nat
  SND_WND : Nat
  SND_WL1 : Nat
  SND_WL2 : Nat
  ISS : Nat
  RCV_NXT : Nat
  RCV_WND : Nat
  IRS : Nat
deriving DecidableEq

/-- Modelled from the spec: `TCB::init()` (declared outside these sources)
chooses a fresh ISS, sets `SND.UNA = SND.NXT = ISS` and seeds `RCV.WND` from
configuration.  The fresh ISS and the configured window arrive as arguments. -/
def TCB.init (t : TCB) (iss wnd : Nat) : TCB :=
  { t with ISS := wrap iss, SND_UNA := wrap iss, SND_NXT := wrap iss,
           RCV_WND := wnd }

/-- The eleven TCP states. -/
inductive TcpState
  | Closed | Listen | SynSent | SynReceived | Established
  | FinWait1 | FinWait2 | CloseWait | Closing | LastAck | TimeWait
deriving DecidableEq

/-- Result codes of `handle`. -/
inductive Result
  | OK | CLOSED | CLOSE
deriving DecidableEq

/-- Disconnect causes passed to `signal_disconnect`. -/
inductive Disconnect
  | CLOSING | RESET | REFUSED
deriving DecidableEq

/-- Tags for `Connection::drop(packet, reason)` calls. -/
inductive DropReason
  | unacceptableSEQ | ackBeyondSndNxt | noACK | rstDrop | rstWithAckDrop
  | synRcvNoAck | genericDrop
deriving DecidableEq

/-- Errors thrown by open/send/receive/close. -/
inductive TCPException
  | alreadyExists | noRemoteHost | closing | doesNotExist
deriving DecidableEq

/-- Observable side effects of the state machine on the Connection facade,
in the order the source performs them. -/
inductive Event
  | transmit (p : OutPacket)
  | dropped (r : DropReason)
  | signalDisconnect (cause : Disconnect)
  | signalConnect
  | signalError
  | acknowledge (a : Nat)
  | renoDupAck (a : Nat)
  | rtAckQueue (a : Nat)
  | rtFlush
  | rtStop
  | rttmStop
  | startTimeWaitTimeout
  | writeQueuePush
  | writeQueueReset
  | receiveData (len : Nat) (psh : Bool)
  | receiveDisconnect
deriving DecidableEq

/-- The Connection facade as the state machine sees it: the TCB, the current
and previous state, and the environment answers the missing collaborator
objects would give (read buffer, RTTM, write queue, user callbacks). -/
structure Conn where
  tcb : TCB
  state : TcpState
  prevState : TcpState
  remoteEmpty : Bool
  readCapacity : Nat
  readBufferEmpty : Bool
  rttmActive : Bool
  hasDoableJob : Bool
  isQueued : Bool
  acceptAnswer : Bool
  connectAdvances : Nat
  greatestAck : Nat
  lastWin : Nat
  freshISS : Nat
  cfgWND : Nat
deriving DecidableEq

/-- Embedding of `Connection::set_state` records the new state and the previous one. -/
def set_state (c : Conn) (st : TcpState) : Conn :=
  { c with prevState := c.state, state := st }

/-- The four-branch acceptability chain of `Connection::State::check_seq`.
`last` is the 32-bit value of `SEG.SEQ + SEG.LEN - 1` (wrap-around when the
length is zero, exactly as the unsigned arithmetic of the source). -/
def seq_acceptable (t : TCB) (s : Segment) : Bool :=
  let last := s.seq + s.dataLength + (M32 - 1)
  if wrap s.seq = wrap t.RCV_NXT then true
  else if seqLe t.RCV_NXT s.seq && seqLt s.seq (t.RCV_NXT + t.RCV_WND) then true
  else if seqGt last (t.RCV_NXT + t.RCV_WND) then false
  else if (seqLe t.RCV_NXT s.seq && seqLt s.seq (t.RCV_NXT + t.RCV_WND))
       || (seqLe t.RCV_NXT last && seqLt last (t.RCV_NXT + t.RCV_WND)) then true
  else false

/-- Embedding of `Connection::State::check_seq`: on rejection, emit
`<SEQ=SND.NXT><ACK=RCV.NXT><CTL=ACK>` unless the segment carries RST, then
drop the segment. -/
def check_seq (c : Conn) (s : Segment) : Bool × List Event :=
  if seq_acceptable c.tcb s then (true, [])
  else
    (false,
     (if !s.RST then
        [Event.transmit (((OutPacket.empty.set_seq c.tcb.SND_NXT).set_ack
            c.tcb.RCV_NXT).set_flag Flag.ACK)]
      else []) ++ [Event.dropped DropReason.unacceptableSEQ])

/-- Modelled from the spec: `Connection::reno_is_dup_ack` (declared outside
these sources) recognises an RFC 5681 duplicate ACK by five conditions:
outstanding unacked data, no data, neither SYN nor FIN, ack equal to the
greatest ack seen, window equal to the last advertised window. -/
def reno_is_dup_ack (c : Conn) (s : Segment) : Bool :=
  (wrap c.tcb.SND_UNA != wrap c.tcb.SND_NXT)
  && (s.dataLength == 0)
  && !s.SYN && !s.FIN
  && (wrap s.ack == wrap c.greatestAck)
  && (s.win == c.lastWin)

/-- Modelled from the spec: `Connection::acknowledge(SEG.ACK)` (declared
outside these sources) advances `SND.UNA` to the ack, frees acknowledged
retransmission-queue entries and notifies the RTTM. -/
def acknowledge (t : TCB) (a : Nat) : TCB × List Event :=
  ({ t with SND_UNA := wrap a }, [Event.acknowledge (wrap a)])

/-- Embedding of `Connection::State::check_ack`.  The window-update condition of the
source contains an embedded assignment: `tcb.SND.WL1 = in->seq()` (a single
`=`, not `==`); when the first disjunct `SND.WL1 < SEG.SEQ` is false,
`SND.WL1` is overwritten with `SEG.SEQ` before the rest of the condition is
evaluated, and the assignment's value contributes `SEG.SEQ != 0` to the
conjunction. -/
def check_ack (c : Conn) (s : Segment) : Bool × TCB × List Event :=
  let t := c.tcb
  if s.ACK then
    if seqLe s.ack t.SND_NXT then
      if seqLe t.SND_UNA s.ack then
        let condAndTcb :=
          if seqLt t.SND_WL1 s.seq then (true, t)
          else ((wrap s.seq != 0) && seqLe t.SND_WL2 s.ack,
                { t with SND_WL1 := wrap s.seq })
        let t2 :=
          if condAndTcb.1 then
            { condAndTcb.2 with SND_WND := wrap s.win, SND_WL1 := wrap s.seq,
                                SND_WL2 := wrap s.ack }
          else condAndTcb.2
        if seqLt t2.SND_UNA s.ack then
          let ak := acknowledge t2 s.ack
          (true, ak.1, ak.2)
        else if reno_is_dup_ack c s then
          (true, t2, [Event.renoDupAck (wrap s.ack)])
        else (true, t2, [])
      else (true, t, [])
    else
      (false, t, [Event.transmit (OutPacket.empty.set_flag Flag.ACK),
                  Event.dropped DropReason.ackBeyondSndNxt])
  else (false, t, [Event.dropped DropReason.noACK])

/-- Embedding of `Connection::State::process_segment`: deliver data when the read buffer
has capacity, advance `RCV.NXT` by the segment length, acknowledge, and push
the write queue when it has a doable job and is not queued. -/
def process_segment (c : Conn) (s : Segment) : TCB × List Event :=
  let t := c.tcb
  let evs1 := if c.readCapacity != 0 then [Event.receiveData s.dataLength s.PSH]
              else []
  let t1 := { t with RCV_NXT := wrap (t.RCV_NXT + s.dataLength) }
  let pkt := ((OutPacket.empty.set_seq t1.SND_NXT).set_ack
      t1.RCV_NXT).set_flag Flag.ACK
  let evs2 := if c.hasDoableJob && !c.isQueued then [Event.writeQueuePush]
              else []
  (t1, evs1 ++ [Event.transmit pkt] ++ evs2)

/-- Embedding of `Connection::State::process_fin`: signal closing, advance `RCV.NXT` over
the FIN, acknowledge, and notify a pending read. -/
def process_fin (c : Conn) (_s : Segment) : TCB × List Event :=
  let t := c.tcb
  let t1 := { t with RCV_NXT := wrap (t.RCV_NXT + 1) }
  let pkt := (OutPacket.empty.set_ack t1.RCV_NXT).set_flag Flag.ACK
  (t1, [Event.signalDisconnect Disconnect.CLOSING, Event.transmit pkt]
       ++ (if !c.readBufferEmpty then [Event.receiveDisconnect] else []))

/-- Embedding of `Connection::State::unallowed_syn_reset_connection`: emit
`<SEQ=SEG.ACK><CTL=RST>` and signal disconnect with cause RESET. -/
def unallowed_syn_reset_connection (_c : Conn) (s : Segment) : List Event :=
  [Event.transmit ((OutPacket.empty.set_seq s.ack).set_flag Flag.RST),
   Event.signalDisconnect Disconnect.RESET]

/-- Embedding of `Connection::State::send_reset`: flush the write queue, flush the
retransmission queue and emit `<SEQ=SND.NXT><ACK=0><CTL=RST>`. -/
def send_reset (c : Conn) : List Event :=
  [Event.writeQueueReset, Event.rtFlush,
   Event.transmit (((OutPacket.empty.set_seq c.tcb.SND_NXT).set_ack
       0).set_flag Flag.RST)]

/-- Embedding of `Connection::Closed::handle`. -/
def Closed.handle (c : Conn) (s : Segment) : Result × Conn × List Event :=
  if s.RST then (Result.OK, c, [])
  else if !s.ACK then
    (Result.OK, c,
     [Event.transmit ((((OutPacket.empty.set_seq 0).set_ack
         (s.seq + s.dataLength)).set_flag Flag.RST).set_flag Flag.ACK)])
  else
    (Result.OK, c,
     [Event.transmit ((OutPacket.empty.set_seq s.ack).set_flag Flag.RST)])

/-- Embedding of `Connection::Listen::handle`. -/
def Listen.handle (c : Conn) (s : Segment) : Result × Conn × List Event :=
  if s.RST then (Result.OK, c, [])
  else if s.ACK then
    (Result.OK, c,
     [Event.transmit ((OutPacket.empty.set_seq s.ack).set_flag Flag.RST)])
  else if s.SYN then
    if !c.acceptAnswer then (Result.CLOSED, c, [])
    else
      let t0 := { c.tcb with RCV_NXT := wrap (s.seq + 1), IRS := wrap s.seq }
      let t1 := TCB.init t0 c.freshISS c.cfgWND
      let t2 := { t1 with SND_NXT := wrap (t1.ISS + 1), SND_UNA := t1.ISS }
      let pkt := add_option_MSS ((((OutPacket.empty.set_seq t2.ISS).set_ack
          t2.RCV_NXT).set_flag Flag.SYN).set_flag Flag.ACK)
      (Result.OK, set_state { c with tcb := t2 } TcpState.SynReceived,
       [Event.transmit pkt])
  else (Result.OK, c, [])

/-- Embedding of `Connection::SynSent::handle`.  Note that in the SYN step the source
assigns `SND.UNA = in->ack()` whether or not the segment carries ACK. -/
def SynSent.handle (c : Conn) (s : Segment) : Result × Conn × List Event :=
  let t := c.tcb
  if s.ACK && (seqLe s.ack t.ISS || seqGt s.ack t.SND_NXT) then
    if !s.RST then
      (Result.OK, c,
       [Event.transmit ((OutPacket.empty.set_seq s.ack).set_flag Flag.RST)])
    else (Result.OK, c, [Event.dropped DropReason.rstDrop])
  else
    let evs0 := if s.ACK && c.rttmActive then [Event.rttmStop] else []
    if s.RST then
      if s.ACK then
        (Result.CLOSED, c,
         evs0 ++ [Event.signalError, Event.dropped DropReason.rstWithAckDrop])
      else (Result.OK, c, evs0 ++ [Event.dropped DropReason.rstDrop])
    else if s.SYN then
      let t1 := { t with RCV_NXT := wrap (s.seq + 1), IRS := wrap s.seq,
                         SND_UNA := wrap s.ack }
      let evs1 := evs0 ++ [Event.rtAckQueue (wrap s.ack)]
      if seqGt t1.SND_UNA t1.ISS then
        let c1 := set_state { c with tcb := t1 } TcpState.Established
        let t2 := { t1 with SND_WND := wrap s.win, SND_WL1 := wrap s.seq,
                            SND_WL2 := wrap s.ack }
        let snd_nxt := t2.SND_NXT
        let t3 := { t2 with SND_NXT := wrap (t2.SND_NXT + c.connectAdvances) }
        let evs2 := evs1 ++ [Event.signalConnect]
        let evs3 := evs2 ++
          (if wrap t3.SND_NXT = wrap snd_nxt then
            [Event.transmit (((OutPacket.empty.set_seq t3.SND_NXT).set_ack
                t3.RCV_NXT).set_flag Flag.ACK)]
           else [])
        let c2 := { c1 with tcb := t3 }
        let dres := if s.has_data then process_segment c2 s else (t3, [])
        let c3 := { c2 with tcb := dres.1 }
        if s.FIN then
          let fres := process_fin c3 s
          (Result.OK, set_state { c3 with tcb := fres.1 } TcpState.CloseWait,
           evs3 ++ dres.2 ++ fres.2)
        else (Result.OK, c3, evs3 ++ dres.2)
      else
        let pkt := (((OutPacket.empty.set_seq t1.ISS).set_ack
            t1.RCV_NXT).set_flag Flag.SYN).set_flag Flag.ACK
        let c1 := set_state { c with tcb := t1 } TcpState.SynReceived
        let dres := if s.has_data then process_segment c1 s else (t1, [])
        (Result.OK, { c1 with tcb := dres.1 },
         evs1 ++ [Event.transmit pkt] ++ dres.2)
    else (Result.OK, c, evs0 ++ [Event.dropped DropReason.genericDrop])

/-- Embedding of `Connection::SynReceived::handle`. -/
def SynReceived.handle (c : Conn) (s : Segment) : Result × Conn × List Event :=
  if !(check_seq c s).1 then (Result.OK, c, (check_seq c s).2)
  else if s.RST then
    if c.prevState = TcpState.SynSent then
      (Result.CLOSED, c, [Event.signalDisconnect Disconnect.REFUSED])
    else (Result.CLOSED, c, [])
  else if s.SYN then (Result.CLOSED, c, unallowed_syn_reset_connection c s)
  else if s.ACK then
    let t := c.tcb
    if seqLe t.SND_UNA s.ack && seqLe s.ack t.SND_NXT then
      let evsA := if c.rttmActive then [Event.rttmStop] else []
      let c1 := set_state c TcpState.Established
      let t1 := { t with SND_UNA := wrap s.ack }
      let evsB := evsA ++ (if c.rttmActive then [Event.rttmStop] else [])
                  ++ [Event.rtAckQueue (wrap s.ack)]
      let c2 := { c1 with tcb := t1 }
      let dres := if s.has_data then process_segment c2 s else (t1, [])
      let t3 := { dres.1 with
                  SND_NXT := wrap (dres.1.SND_NXT + c.connectAdvances) }
      let evsD := evsB ++ dres.2 ++ [Event.signalConnect]
      let c3 := { c2 with tcb := t3 }
      if s.FIN then
        let fres := process_fin c3 s
        (Result.CLOSE, set_state { c3 with tcb := fres.1 } TcpState.CloseWait,
         evsD ++ fres.2)
      else (Result.OK, c3, evsD)
    else
      let evsR :=
        [Event.transmit ((OutPacket.empty.set_seq s.ack).set_flag Flag.RST)]
      if s.FIN then
        let fres := process_fin c s
        (Result.OK, set_state { c with tcb := fres.1 } TcpState.CloseWait,
         evsR ++ fres.2)
      else (Result.OK, c, evsR)
  else (Result.OK, c, [Event.dropped DropReason.synRcvNoAck])

/-- Embedding of `Connection::Established::handle`. -/
def Established.handle (c : Conn) (s : Segment) : Result × Conn × List Event :=
  if !(check_seq c s).1 then (Result.OK, c, (check_seq c s).2)
  else if s.RST then
    (Result.CLOSED, c, [Event.signalDisconnect Disconnect.RESET])
  else if s.SYN then (Result.CLOSED, c, unallowed_syn_reset_connection c s)
  else
    let ares := check_ack c s
    if !ares.1 then (Result.OK, { c with tcb := ares.2.1 }, ares.2.2)
    else
      let c1 := { c with tcb := ares.2.1 }
      let dres := if s.has_data then process_segment c1 s else (ares.2.1, [])
      let c2 := { c1 with tcb := dres.1 }
      if s.FIN then
        let fres := process_fin c2 s
        (Result.CLOSE, set_state { c2 with tcb := fres.1 } TcpState.CloseWait,
         ares.2.2 ++ dres.2 ++ fres.2)
      else (Result.OK, c2, ares.2.2 ++ dres.2)

/-- Embedding of `Connection::FinWait2::handle`. -/
def FinWait2.handle (c : Conn) (s : Segment) : Result × Conn × List Event :=
  if !(check_seq c s).1 then (Result.OK, c, (check_seq c s).2)
  else if s.RST then
    (Result.CLOSED, c, [Event.signalDisconnect Disconnect.RESET])
  else if s.SYN then (Result.CLOSED, c, unallowed_syn_reset_connection c s)
  else
    let ares := check_ack c s
    if !ares.1 then (Result.OK, { c with tcb := ares.2.1 }, ares.2.2)
    else
      let c1 := { c with tcb := ares.2.1 }
      let dres := if s.has_data then process_segment c1 s else (ares.2.1, [])
      let c2 := { c1 with tcb := dres.1 }
      if s.FIN then
        let fres := process_fin c2 s
        (Result.OK, set_state { c2 with tcb := fres.1 } TcpState.TimeWait,
         ares.2.2 ++ dres.2 ++ fres.2 ++ [Event.rtStop,
           Event.startTimeWaitTimeout])
      else (Result.OK, c2, ares.2.2 ++ dres.2)

/-- Embedding of `Connection::FinWait1::handle`.  When the incoming ack equals `SND.NXT`
the source re-dispatches the same segment in FIN-WAIT-2. -/
def FinWait1.handle (c : Conn) (s : Segment) : Result × Conn × List Event :=
  if !(check_seq c s).1 then (Result.OK, c, (check_seq c s).2)
  else if s.RST then
    (Result.CLOSED, c, [Event.signalDisconnect Disconnect.RESET])
  else if s.SYN then (Result.CLOSED, c, unallowed_syn_reset_connection c s)
  else
    let ares := check_ack c s
    if !ares.1 then (Result.OK, { c with tcb := ares.2.1 }, ares.2.2)
    else
      let c1 := { c with tcb := ares.2.1 }
      if wrap s.ack = wrap ares.2.1.SND_NXT then
        let rres := FinWait2.handle (set_state c1 TcpState.FinWait2) s
        (rres.1, rres.2.1, ares.2.2 ++ rres.2.2)
      else
        let dres := if s.has_data then process_segment c1 s else (ares.2.1, [])
        let c2 := { c1 with tcb := dres.1 }
        if s.FIN then
          let fres := process_fin c2 s
          if wrap s.ack = wrap fres.1.SND_NXT then
            (Result.OK, set_state { c2 with tcb := fres.1 } TcpState.TimeWait,
             ares.2.2 ++ dres.2 ++ fres.2 ++ [Event.rtStop,
               Event.startTimeWaitTimeout])
          else
            (Result.OK, set_state { c2 with tcb := fres.1 } TcpState.Closing,
             ares.2.2 ++ dres.2 ++ fres.2)
        else (Result.OK, c2, ares.2.2 ++ dres.2)

/-- Embedding of `Connection::CloseWait::handle`.  Segment text is ignored (a FIN has
already been received from the remote side). -/
def CloseWait.handle (c : Conn) (s : Segment) : Result × Conn × List Event :=
  if !(check_seq c s).1 then (Result.OK, c, (check_seq c s).2)
  else if s.RST then
    (Result.CLOSED, c, [Event.signalDisconnect Disconnect.RESET])
  else if s.SYN then (Result.CLOSED, c, unallowed_syn_reset_connection c s)
  else
    let ares := check_ack c s
    if !ares.1 then (Result.OK, { c with tcb := ares.2.1 }, ares.2.2)
    else
      let c1 := { c with tcb := ares.2.1 }
      if s.FIN then
        let fres := process_fin c1 s
        (Result.OK, { c1 with tcb := fres.1 }, ares.2.2 ++ fres.2)
      else (Result.OK, c1, ares.2.2)

/-- Embedding of `Connection::Closing::handle`. -/
def Closing.handle (c : Conn) (s : Segment) : Result × Conn × List Event :=
  if !(check_seq c s).1 then (Result.OK, c, (check_seq c s).2)
  else if s.RST then (Result.CLOSED, c, [])
  else if s.SYN then (Result.CLOSED, c, unallowed_syn_reset_connection c s)
  else
    let ares := check_ack c s
    if !ares.1 then (Result.CLOSED, { c with tcb := ares.2.1 }, ares.2.2)
    else
      let c1 := { c with tcb := ares.2.1 }
      let step :=
        if wrap s.ack = wrap ares.2.1.SND_NXT then
          (set_state c1 TcpState.TimeWait, [Event.startTimeWaitTimeout])
        else (c1, ([] : List Event))
      if s.FIN then
        let fres := process_fin step.1 s
        (Result.OK, { step.1 with tcb := fres.1 }, ares.2.2 ++ step.2 ++ fres.2)
      else (Result.OK, step.1, ares.2.2 ++ step.2)

/-- Embedding of `Connection::LastAck::handle`: the source returns CLOSED immediately
after the sequence check; the RST/SYN/ACK/FIN steps written below that
return are unreachable. -/
def LastAck.handle (c : Conn) (s : Segment) : Result × Conn × List Event :=
  if !(check_seq c s).1 then (Result.OK, c, (check_seq c s).2)
  else (Result.CLOSED, c, [])

/-- Embedding of `Connection::TimeWait::handle`. -/
def TimeWait.handle (c : Conn) (s : Segment) : Result × Conn × List Event :=
  if !(check_seq c s).1 then (Result.OK, c, (check_seq c s).2)
  else if s.RST then (Result.CLOSED, c, [])
  else if s.SYN then (Result.CLOSED, c, unallowed_syn_reset_connection c s)
  else if s.FIN then
    let fres := process_fin c s
    (Result.OK, { c with tcb := fres.1 },
     fres.2 ++ [Event.startTimeWaitTimeout])
  else (Result.OK, c, [])

/-- Dispatch `handle` on the current state, as the virtual call does. -/
def handle (c : Conn) (s : Segment) : Result × Conn × List Event :=
  match c.state with
  | TcpState.Closed => Closed.handle c s
  | TcpState.Listen => Listen.handle c s
  | TcpState.SynSent => SynSent.handle c s
  | TcpState.SynReceived => SynReceived.handle c s
  | TcpState.Established => Established.handle c s
  | TcpState.FinWait1 => FinWait1.handle c s
  | TcpState.FinWait2 => FinWait2.handle c s
  | TcpState.CloseWait => CloseWait.handle c s
  | TcpState.Closing => Closing.handle c s
  | TcpState.LastAck => LastAck.handle c s
  | TcpState.TimeWait => TimeWait.handle c s

/-- Embedding of `Connection::Closed::open` (named `open'` because `open` is reserved). -/
def Closed.open' (c : Conn) (active : Bool) :
    Except TCPException (Conn × List Event) :=
  if active then
    if !c.remoteEmpty then
      let t1 := TCB.init c.tcb c.freshISS c.cfgWND
      let pkt := add_option_MSS ((OutPacket.empty.set_seq t1.ISS).set_flag
          Flag.SYN)
      let t2 := { t1 with SND_UNA := t1.ISS, SND_NXT := wrap (t1.ISS + 1) }
      Except.ok (set_state { c with tcb := t2 } TcpState.SynSent,
                 [Event.transmit pkt])
    else Except.error TCPException.noRemoteHost
  else Except.ok (set_state c TcpState.Listen, [])

/-- Embedding of `Connection::Listen::open`: like the Closed active open, but the source
does not attach the MSS option to the SYN it emits. -/
def Listen.open' (c : Conn) (_active : Bool) :
    Except TCPException (Conn × List Event) :=
  if !c.remoteEmpty then
    let t1 := TCB.init c.tcb c.freshISS c.cfgWND
    let pkt := (OutPacket.empty.set_seq t1.ISS).set_flag Flag.SYN
    let t2 := { t1 with SND_UNA := t1.ISS, SND_NXT := wrap (t1.ISS + 1) }
    Except.ok (set_state { c with tcb := t2 } TcpState.SynSent,
               [Event.transmit pkt])
  else Except.error TCPException.noRemoteHost

/-- The TCB both active opens produce: a freshly initialised TCB with
`SND.UNA = ISS` and `SND.NXT = ISS + 1`. -/
def openTCB (c : Conn) : TCB :=
  { TCB.init c.tcb c.freshISS c.cfgWND with
    SND_UNA := (TCB.init c.tcb c.freshISS c.cfgWND).ISS,
    SND_NXT := wrap ((TCB.init c.tcb c.freshISS c.cfgWND).ISS + 1) }

/-- The bare SYN segment both active opens build before options. -/
def openSYN (c : Conn) : OutPacket :=
  (OutPacket.empty.set_seq (TCB.init c.tcb c.freshISS c.cfgWND).ISS).set_flag
    Flag.SYN

theorem sub32_eq_zero_iff (a b : Nat) : sub32 a b = 0 ↔ wrap a = wrap b := by
  have hx : a % M32 < M32 := Nat.mod_lt _ M32_pos
  have hy : b % M32 < M32 := Nat.mod_lt _ M32_pos
  rw [sub32_piece]
  unfold wrap
  split <;> omega

theorem sub32_swap (a b : Nat) (h : sub32 a b ≠ 0) :
    sub32 b a = M32 - sub32 a b := by
  have hx : a % M32 < M32 := Nat.mod_lt _ M32_pos
  have hy : b % M32 < M32 := Nat.mod_lt _ M32_pos
  rw [sub32_piece] at h
  rw [sub32_piece, sub32_piece]
  split at h <;> split <;> omega

theorem seqLt_true_iff (a b : Nat) : seqLt a b = true ↔ H32 ≤ sub32 a b := by
  unfold seqLt; simp

theorem seqLe_true_iff (a b : Nat) :
    seqLe a b = true ↔ (sub32 a b = 0 ∨ H32 ≤ sub32 a b) := by
  unfold seqLe seqLt
  simp [sub32_eq_zero_iff]

theorem seqGt_true_iff (a b : Nat) :
    seqGt a b = true ↔ (0 < sub32 a b ∧ sub32 a b < H32) := by
  unfold seqGt; simp

theorem seqLe_false_iff (a b : Nat) :
    seqLe a b = false ↔ (0 < sub32 a b ∧ sub32 a b < H32) := by
  rw [← Bool.not_eq_true, seqLe_true_iff]
  omega

theorem seqLt_false_iff (a b : Nat) : seqLt a b = false ↔ sub32 a b < H32 := by
  rw [← Bool.not_eq_true, seqLt_true_iff]
  omega

/-- C1: the claim states that with segment length greater than zero and
RCV.WND equal to zero no segment is acceptable; the first branch of
`check_seq` accepts any segment with SEG.SEQ equal to RCV.NXT regardless of
length and window, so a one-byte segment at SEG.SEQ = RCV.NXT = 0 with
RCV.WND = 0 is accepted, contradicting the acceptability table quoted in the
function's own comment. -/
theorem C1_zero_window_data_accepted :
    check_seq
      ⟨⟨0, 0, 0, 0, 0, 0, 0, 0, 0⟩, TcpState.Established,
       TcpState.Established, false, 0, true, false, false, false, true,
       0, 0, 0, 0, 0⟩
      ⟨0, 0, 0, 1, false, true, false, false, false⟩ = (true, []) := by
  decide

/-- C2: on the acceptable ACK (SND.UNA = 0 ≤ SEG.ACK = 4 ≤ SND.NXT = 10)
with SND.WL1 = 5, SEG.SEQ = 3, the claim's guard
(SND.WL1 < SEG.SEQ, or SND.WL1 = SEG.SEQ and SND.WL2 ≤ SEG.ACK) is false,
so the claim requires SND.WND, SND.WL1, SND.WL2 unchanged; the embedded
assignment in the source's condition instead overwrites SND.WL1 with 3 and
performs the full window update. -/
theorem C2_window_update_assignment_bug :
    (seqLt 5 3 || (decide (wrap 5 = wrap 3) && seqLe 0 4)) = false
    ∧ check_ack
        ⟨⟨0, 10, 0, 5, 0, 0, 0, 0, 0⟩, TcpState.Established,
         TcpState.Established, false, 0, true, false, false, false, true,
         0, 0, 0, 0, 0⟩
        ⟨3, 4, 777, 0, false, true, false, false, false⟩
      = (true, ⟨4, 10, 777, 3, 4, 0, 0, 0, 0⟩, [Event.acknowledge 4]) := by
  constructor
  · decide
  · decide

/-- C4: in SynSent, the SYN step assigns SND.UNA from the segment's ack
field even when the ACK flag is absent, so a SYN-only segment whose raw ack
field is 1000 drives SND.UNA to 1000 while SND.NXT stays 1: the invariant
SND.UNA ≤ SND.NXT held before the call and is violated after it. -/
theorem C4_handle_breaks_una_le_nxt :
    seqLe 0 1 = true
    ∧ (handle
        ⟨⟨0, 1, 0, 0, 0, 0, 0, 0, 0⟩, TcpState.SynSent, TcpState.Closed,
         false, 0, true, false, false, false, true, 0, 0, 0, 0, 0⟩
        ⟨5, 1000, 0, 0, true, false, false, false, false⟩).2.1.tcb.SND_UNA
      = 1000
    ∧ (handle
        ⟨⟨0, 1, 0, 0, 0, 0, 0, 0, 0⟩, TcpState.SynSent, TcpState.Closed,
         false, 0, true, false, false, false, true, 0, 0, 0, 0, 0⟩
        ⟨5, 1000, 0, 0, true, false, false, false, false⟩).2.1.tcb.SND_NXT
      = 1
    ∧ seqLe 1000 1 = false := by
  refine ⟨by decide, ?_, ?_, by decide⟩
  · decide
  · decide

/-- C8: an old duplicate ACK (ACK flag set, SEG.ACK at or below SND.NXT but
strictly below SND.UNA in sequence order) makes check_ack return true with
the TCB untouched and no side effect, and an Established connection
receiving such a segment (in-window, no RST/SYN, carrying FIN) still
processes its data and FIN: the handle result is CLOSE, the state moves to
CloseWait and RCV.NXT advances over the data and the FIN. -/
theorem C8_old_dup_ack_continue (c : Conn) (s : Segment)
    (hack : s.ACK = true)
    (hle : seqLe s.ack c.tcb.SND_NXT = true)
    (hlt : seqLe c.tcb.SND_UNA s.ack = false) :
    seqLt s.ack c.tcb.SND_UNA = true
    ∧ check_ack c s = (true, c.tcb, [])
    ∧ ((check_seq c s).1 = true → s.RST = false → s.SYN = false →
        s.FIN = true →
        (Established.handle c s).1 = Result.CLOSE
        ∧ (Established.handle c s).2.1.state = TcpState.CloseWait
        ∧ (Established.handle c s).2.1.tcb.RCV_NXT
            = wrap (c.tcb.RCV_NXT + s.dataLength + 1)) := by
  have hswap : seqLt s.ack c.tcb.SND_UNA = true := by
    rw [seqLe_false_iff] at hlt
    rw [seqLt_true_iff]
    have h1 : sub32 c.tcb.SND_UNA s.ack ≠ 0 := by omega
    rw [sub32_swap _ _ h1]
    have hM : M32 = 2 * H32 := by decide
    omega
  have hca : check_ack c s = (true, c.tcb, []) := by
    unfold check_ack
    simp [hack, hle, hlt]
  refine ⟨hswap, hca, ?_⟩
  intro hseq hrst hsyn hfin
  unfold Established.handle
  rw [hseq, hrst, hsyn, hca, hfin]
  by_cases hd : s.has_data = true
  · simp [hd, process_fin, process_segment, set_state, wrap, Nat.mod_add_mod]
  · have hd0 : s.dataLength = 0 := by
      unfold Segment.has_data at hd
      simpa using hd
    simp [hd, hd0, process_fin, set_state, wrap]

/-- C10: a SYN arriving in Listen when the owner's accept callback refuses
returns CLOSED without transmitting anything and without touching the
connection (all TCB variables unchanged). -/
theorem C10_listen_refused_frame (c : Conn) (s : Segment)
    (hrst : s.RST = false) (hack : s.ACK = false) (hsyn : s.SYN = true)
    (hgate : c.acceptAnswer = false) :
    Listen.handle c s = (Result.CLOSED, c, []) := by
  unfold Listen.handle
  rw [hrst, hack, hsyn, hgate]
  simp

/-- Witness for C8 at SND.UNA = 10, SND.NXT = 20, SEG.ACK = 5. -/
theorem C8_old_dup_ack_continue_witness :
    seqLt 5 10 = true
    ∧ check_ack
        ⟨⟨10, 20, 0, 5, 0, 0, 0, 0, 0⟩, TcpState.Established,
         TcpState.Established, false, 0, true, false, false, false, true,
         0, 0, 0, 0, 0⟩
        ⟨3, 5, 777, 0, false, true, false, false, false⟩
      = (true, ⟨10, 20, 0, 5, 0, 0, 0, 0, 0⟩, [])
    ∧ True := by
  have h := C8_old_dup_ack_continue
    ⟨⟨10, 20, 0, 5, 0, 0, 0, 0, 0⟩, TcpState.Established,
     TcpState.Established, false, 0, true, false, false, false, true,
     0, 0, 0, 0, 0⟩
    ⟨3, 5, 777, 0, false, true, false, false, false⟩
    (by decide) (by decide) (by decide)
  exact ⟨h.1, h.2.1, trivial⟩

/-- C5 (amended): an active open in Listen with a remote host behaves like
an active open in Closed — same TCB initialisation (SND.UNA = ISS,
SND.NXT = ISS + 1), same transition to SynSent, same SYN segment with
SEQ = ISS — except that only the Closed open attaches the MSS option to the
SYN it emits. -/
theorem C5_open_listen_vs_closed (c : Conn) (b : Bool)
    (h : c.remoteEmpty = false) :
    Closed.open' c true =
      Except.ok (set_state { c with tcb := openTCB c } TcpState.SynSent,
                 [Event.transmit (add_option_MSS (openSYN c))])
    ∧ Listen.open' c b =
      Except.ok (set_state { c with tcb := openTCB c } TcpState.SynSent,
                 [Event.transmit (openSYN c)])
    ∧ (add_option_MSS (openSYN c)).mss = true
    ∧ (openSYN c).mss = false := by
  unfold Closed.open' Listen.open' openTCB openSYN
  simp [h, add_option_MSS, OutPacket.set_seq, OutPacket.set_flag,
        OutPacket.empty]

/-- C5 counterexample: the claim says the Listen active open emits a SYN
carrying the MSS option; at this concrete connection the emitted SYN has no
MSS option. -/
theorem C5_counterexample_no_mss :
    Listen.open'
      ⟨⟨0, 0, 0, 0, 0, 0, 0, 0, 0⟩, TcpState.Listen, TcpState.Closed, false,
       0, true, false, false, false, true, 0, 0, 0, 7000, 8192⟩ true
    = Except.ok
        (⟨⟨7000, 7001, 0, 0, 0, 7000, 0, 8192, 0⟩, TcpState.SynSent,
          TcpState.Listen, false, 0, true, false, false, false, true, 0, 0,
          0, 7000, 8192⟩,
         [Event.transmit
            ⟨some 7000, none, true, false, false, false, false, false⟩])
    ∧ (⟨some 7000, none, true, false, false, false, false, false⟩
        : OutPacket).mss = false :=
  ⟨rfl, rfl⟩

/-- Witness for C5 (amended) at a concrete connection with a remote host. -/
theorem C5_open_listen_vs_closed_witness :
    Closed.open'
      ⟨⟨0, 0, 0, 0, 0, 0, 0, 0, 0⟩, TcpState.Closed, TcpState.Closed, false,
       0, true, false, false, false, true, 0, 0, 0, 7000, 8192⟩ true
    = Except.ok
        (set_state
          { (⟨⟨0, 0, 0, 0, 0, 0, 0, 0, 0⟩, TcpState.Closed, TcpState.Closed,
              false, 0, true, false, false, false, true, 0, 0, 0, 7000,
              8192⟩ : Conn) with
            tcb := openTCB
              ⟨⟨0, 0, 0, 0, 0, 0, 0, 0, 0⟩, TcpState.Closed, TcpState.Closed,
               false, 0, true, false, false, false, true, 0, 0, 0, 7000,
               8192⟩ } TcpState.SynSent,
         [Event.transmit (add_option_MSS (openSYN
            ⟨⟨0, 0, 0, 0, 0, 0, 0, 0, 0⟩, TcpState.Closed, TcpState.Closed,
             false, 0, true, false, false, false, true, 0, 0, 0, 7000,
             8192⟩))]) :=
  (C5_open_listen_vs_closed _ true (by decide)).1

/-- C6: with RCV.NXT already advanced past a processed FIN at sequence f,
a retransmitted pure FIN (SEG.SEQ = f, no data, no RST) is rejected by the
sequence check in CloseWait: the connection re-emits one ACK carrying
ack = RCV.NXT, drops the segment, returns OK, and leaves the whole
connection — in particular RCV.NXT — unchanged. -/
theorem C6_dup_fin_closewait (c : Conn) (s : Segment) (f : Nat)
    (hrcv : c.tcb.RCV_NXT = wrap (f + 1)) (hseq : s.seq = f)
    (hlen : s.dataLength = 0) (hfin : s.FIN = true) (hrst : s.RST = false) :
    CloseWait.handle c s =
      (Result.OK, c,
       [Event.transmit (((OutPacket.empty.set_seq c.tcb.SND_NXT).set_ack
           c.tcb.RCV_NXT).set_flag Flag.ACK),
        Event.dropped DropReason.unacceptableSEQ]) := by
  have h1 : ¬ (wrap f = wrap (wrap (f + 1))) := by
    rw [wrap_wrap]
    exact wrap_ne_wrap_of_sub32_ne f (f + 1)
      (by rw [sub32_self_succ]; decide)
  have h2 : seqLe (wrap (f + 1)) f = false := by
    rw [seqLe_false_iff, sub32_wrap_left, sub32_succ_self]
    exact ⟨by decide, by decide⟩
  have h3 : seqLe (wrap (f + 1)) (f + (M32 - 1)) = false := by
    rw [seqLe_false_iff, sub32_wrap_left]
    have he : sub32 (f + 1) (f + (M32 - 1)) = 2 := by
      apply sub32_eq_of _ _ 2 (by decide)
      have h4 : (1:Nat) ≤ M32 := by decide
      have h5 : f + (M32 - 1) + 2 = f + 1 + M32 := by omega
      rw [h5, Nat.add_mod_right]
    rw [he]
    exact ⟨by decide, by decide⟩
  have hacc : seq_acceptable c.tcb s = false := by
    unfold seq_acceptable
    rw [hseq, hlen, hrcv]
    simp only [Nat.add_zero]
    cases hg : seqGt (f + (M32 - 1)) (wrap (f + 1) + c.tcb.RCV_WND) <;>
      simp [h1, h2, h3, hg]
  have hcs : check_seq c s =
      (false,
       [Event.transmit (((OutPacket.empty.set_seq c.tcb.SND_NXT).set_ack
           c.tcb.RCV_NXT).set_flag Flag.ACK),
        Event.dropped DropReason.unacceptableSEQ]) := by
    unfold check_seq
    rw [hacc]
    simp [hrst]
  unfold CloseWait.handle
  rw [hcs]
  simp

/-- Witness for C6: RCV.NXT = 101 after a FIN at 100; the duplicate FIN at
seq 100 is answered with ack = 101 and nothing changes. -/
theorem C6_dup_fin_closewait_witness :
    CloseWait.handle
      ⟨⟨0, 55, 0, 0, 0, 0, 101, 4096, 0⟩, TcpState.CloseWait,
       TcpState.Established, false, 0, true, false, false, false, true, 0,
       0, 0, 0, 0⟩
      ⟨100, 55, 0, 0, false, true, true, false, false⟩
    = (Result.OK,
       ⟨⟨0, 55, 0, 0, 0, 0, 101, 4096, 0⟩, TcpState.CloseWait,
        TcpState.Established, false, 0, true, false, false, false, true, 0,
        0, 0, 0, 0⟩,
       [Event.transmit ⟨some 55, some 101, false, true, false, false, false,
          false⟩,
        Event.dropped DropReason.unacceptableSEQ]) := by
  have h := C6_dup_fin_closewait
    ⟨⟨0, 55, 0, 0, 0, 0, 101, 4096, 0⟩, TcpState.CloseWait,
     TcpState.Established, false, 0, true, false, false, false, true, 0,
     0, 0, 0, 0⟩
    ⟨100, 55, 0, 0, false, true, true, false, false⟩ 100
    (by decide) rfl rfl rfl rfl
  exact h

/-- C9: in SynReceived, an in-window segment without RST or SYN whose ACK
falls outside [SND.UNA, SND.NXT] makes the connection transmit a reset
with SEQ = SEG.ACK, and when the segment also carries FIN the FIN is still
processed: disconnect with cause CLOSING is signalled, RCV.NXT advances by
one, an ACK with the new RCV.NXT is emitted, the state becomes CloseWait
and handle returns OK. -/
theorem C9_synreceived_bad_ack_fin (c : Conn) (s : Segment)
    (hseqok : (check_seq c s).1 = true) (hrst : s.RST = false)
    (hsyn : s.SYN = false) (hack : s.ACK = true) (hfin : s.FIN = true)
    (hout : (seqLe c.tcb.SND_UNA s.ack && seqLe s.ack c.tcb.SND_NXT)
            = false) :
    SynReceived.handle c s =
      (Result.OK,
       set_state
         { c with tcb := { c.tcb with
             RCV_NXT := wrap (c.tcb.RCV_NXT + 1) } } TcpState.CloseWait,
       [Event.transmit ((OutPacket.empty.set_seq s.ack).set_flag Flag.RST),
        Event.signalDisconnect Disconnect.CLOSING,
        Event.transmit ((OutPacket.empty.set_ack
           (wrap (c.tcb.RCV_NXT + 1))).set_flag Flag.ACK)]
       ++ (if !c.readBufferEmpty then [Event.receiveDisconnect] else [])) := by
  unfold SynReceived.handle
  rw [hseqok]
  simp [hrst, hsyn, hack, hout, hfin, process_fin, OutPacket.set_ack,
        wrap_wrap]

/-- Witness for C9: SND.UNA = 10, SND.NXT = 11, SEG.ACK = 99 (outside),
in-window FIN at RCV.NXT = 100. -/
theorem C9_synreceived_bad_ack_fin_witness :
    SynReceived.handle
      ⟨⟨10, 11, 0, 0, 0, 0, 100, 50, 0⟩, TcpState.SynReceived,
       TcpState.Listen, false, 0, true, false, false, false, true, 0, 0, 0,
       0, 0⟩
      ⟨100, 99, 0, 0, false, true, true, false, false⟩
    = (Result.OK,
       set_state
         { (⟨⟨10, 11, 0, 0, 0, 0, 100, 50, 0⟩, TcpState.SynReceived,
             TcpState.Listen, false, 0, true, false, false, false, true, 0,
             0, 0, 0, 0⟩ : Conn) with
           tcb := { (⟨10, 11, 0, 0, 0, 0, 100, 50, 0⟩ : TCB) with
             RCV_NXT := wrap (100 + 1) } } TcpState.CloseWait,
       [Event.transmit ((OutPacket.empty.set_seq 99).set_flag Flag.RST),
        Event.signalDisconnect Disconnect.CLOSING,
        Event.transmit ((OutPacket.empty.set_ack
           (wrap (100 + 1))).set_flag Flag.ACK)]
       ++ (if !true then [Event.receiveDisconnect] else [])) :=
  C9_synreceived_bad_ack_fin _ _ (by decide) rfl rfl rfl rfl (by decide)

/-- C3 (amended): in the synchronized states other than LastAck
(SynReceived, Established, FinWait1, FinWait2, CloseWait, Closing,
TimeWait), an in-window segment without RST but with SYN triggers
unallowed_syn_reset_connection — a reset with SEQ = SEG.ACK is transmitted
and disconnect with cause RESET is signalled — and handle returns CLOSED
with the connection otherwise untouched.  In LastAck the source returns
CLOSED directly after the sequence check, emitting nothing. -/
theorem C3_syn_on_synchronized (c : Conn) (s : Segment)
    (hst : c.state = TcpState.SynReceived ∨ c.state = TcpState.Established ∨
           c.state = TcpState.FinWait1 ∨ c.state = TcpState.FinWait2 ∨
           c.state = TcpState.CloseWait ∨ c.state = TcpState.Closing ∨
           c.state = TcpState.TimeWait)
    (hseq : (check_seq c s).1 = true) (hrst : s.RST = false)
    (hsyn : s.SYN = true) :
    handle c s =
      (Result.CLOSED, c,
       [Event.transmit ((OutPacket.empty.set_seq s.ack).set_flag Flag.RST),
        Event.signalDisconnect Disconnect.RESET]) := by
  rcases hst with h | h | h | h | h | h | h <;>
    · unfold handle
      rw [h]
      simp [SynReceived.handle, Established.handle, FinWait1.handle,
            FinWait2.handle, CloseWait.handle, Closing.handle,
            TimeWait.handle, unallowed_syn_reset_connection, hseq, hrst,
            hsyn]

/-- C3 counterexample: in LastAck an in-window SYN segment without RST makes
handle return CLOSED with no transmitted reset and no disconnect signal:
unallowed_syn_reset_connection is not triggered. -/
theorem C3_counterexample_lastack :
    (check_seq
      ⟨⟨0, 0, 0, 0, 0, 0, 100, 10, 0⟩, TcpState.LastAck,
       TcpState.CloseWait, false, 0, true, false, false, false, true, 0, 0,
       0, 0, 0⟩
      ⟨100, 42, 0, 0, true, false, false, false, false⟩).1 = true
    ∧ handle
        ⟨⟨0, 0, 0, 0, 0, 0, 100, 10, 0⟩, TcpState.LastAck,
         TcpState.CloseWait, false, 0, true, false, false, false, true, 0,
         0, 0, 0, 0⟩
        ⟨100, 42, 0, 0, true, false, false, false, false⟩
      = (Result.CLOSED,
         ⟨⟨0, 0, 0, 0, 0, 0, 100, 10, 0⟩, TcpState.LastAck,
          TcpState.CloseWait, false, 0, true, false, false, false, true, 0,
          0, 0, 0, 0⟩, [])
    ∧ ([] : List Event) ≠ unallowed_syn_reset_connection
        ⟨⟨0, 0, 0, 0, 0, 0, 100, 10, 0⟩, TcpState.LastAck,
         TcpState.CloseWait, false, 0, true, false, false, false, true, 0,
         0, 0, 0, 0⟩
        ⟨100, 42, 0, 0, true, false, false, false, false⟩ := by
  decide

/-- Witness for C3 (amended): an in-window SYN in Established. -/
theorem C3_syn_on_synchronized_witness :
    handle
      ⟨⟨0, 0, 0, 0, 0, 0, 100, 10, 0⟩, TcpState.Established,
       TcpState.SynReceived, false, 0, true, false, false, false, true, 0,
       0, 0, 0, 0⟩
      ⟨100, 42, 0, 0, true, false, false, false, false⟩
    = (Result.CLOSED,
       ⟨⟨0, 0, 0, 0, 0, 0, 100, 10, 0⟩, TcpState.Established,
        TcpState.SynReceived, false, 0, true, false, false, false, true, 0,
        0, 0, 0, 0⟩,
       [Event.transmit ((OutPacket.empty.set_seq 42).set_flag Flag.RST),
        Event.signalDisconnect Disconnect.RESET]) :=
  C3_syn_on_synchronized _ _ (Or.inr (Or.inl rfl)) (by decide) rfl rfl

/-- C7: in every state whose handle begins with the sequence check
(SynReceived, Established, FinWait1, FinWait2, CloseWait, Closing, LastAck,
TimeWait), a segment rejected by check_seq leaves the connection — TCB,
read buffer, everything — unchanged, and handle returns OK having emitted
only the corrective ACK (ack = RCV.NXT, seq = SND.NXT; suppressed when the
segment carries RST) and the drop. -/
theorem C7_reject_leaves_connection (c : Conn) (s : Segment)
    (hst : c.state = TcpState.SynReceived ∨ c.state = TcpState.Established ∨
           c.state = TcpState.FinWait1 ∨ c.state = TcpState.FinWait2 ∨
           c.state = TcpState.CloseWait ∨ c.state = TcpState.Closing ∨
           c.state = TcpState.LastAck ∨ c.state = TcpState.TimeWait)
    (hrej : (check_seq c s).1 = false) :
    handle c s = (Result.OK, c, (check_seq c s).2)
    ∧ (check_seq c s).2 =
        (if s.RST then [Event.dropped DropReason.unacceptableSEQ]
         else
           [Event.transmit (((OutPacket.empty.set_seq
               c.tcb.SND_NXT).set_ack c.tcb.RCV_NXT).set_flag Flag.ACK),
            Event.dropped DropReason.unacceptableSEQ]) := by
  constructor
  · rcases hst with h | h | h | h | h | h | h | h <;>
      · unfold handle
        rw [h]
        simp [SynReceived.handle, Established.handle, FinWait1.handle,
              FinWait2.handle, CloseWait.handle, Closing.handle,
              LastAck.handle, TimeWait.handle, hrej]
  · unfold check_seq at hrej ⊢
    by_cases hacc : seq_acceptable c.tcb s
    · rw [if_pos hacc] at hrej
      simp at hrej
    · rw [if_neg hacc]
      cases hR : s.RST <;> simp [hR]

/-- Witness for C7: the spec's unacceptable-segment scenario — Established,
RCV.NXT = 1201, RCV.WND = 4096, incoming seq = 500 with 50 bytes. -/
theorem C7_reject_leaves_connection_witness :
    handle
      ⟨⟨0, 5000, 0, 0, 0, 0, 1201, 4096, 0⟩, TcpState.Established,
       TcpState.SynReceived, false, 0, true, false, false, false, true, 0,
       0, 0, 0, 0⟩
      ⟨500, 0, 0, 50, false, true, false, false, false⟩
    = (Result.OK,
       ⟨⟨0, 5000, 0, 0, 0, 0, 1201, 4096, 0⟩, TcpState.Established,
        TcpState.SynReceived, false, 0, true, false, false, false, true, 0,
        0, 0, 0, 0⟩,
       (check_seq
         ⟨⟨0, 5000, 0, 0, 0, 0, 1201, 4096, 0⟩, TcpState.Established,
          TcpState.SynReceived, false, 0, true, false, false, false, true,
          0, 0, 0, 0, 0⟩
         ⟨500, 0, 0, 50, false, true, false, false, false⟩).2) :=
  (C7_reject_leaves_connection _ _ (Or.inr (Or.inl rfl)) (by decide)).1

/-- Witness for C10. -/
theorem C10_listen_refused_frame_witness :
    Listen.handle
      ⟨⟨0, 0, 0, 0, 0, 0, 0, 0, 0⟩, TcpState.Listen, TcpState.Closed,
       false, 0, true, false, false, false, false, 0, 0, 0, 0, 0⟩
      ⟨100, 0, 0, 0, true, false, false, false, false⟩
    = (Result.CLOSED,
       ⟨⟨0, 0, 0, 0, 0, 0, 0, 0, 0⟩, TcpState.Listen, TcpState.Closed,
        false, 0, true, false, false, false, false, 0, 0, 0, 0, 0⟩, []) :=
  C10_listen_refused_frame _ _ (by decide) (by decide) (by decide) (by decide)

end TcpSM
